import Mathlib

/-!
# Verification of the `bubbles-rising` particle engine

Shallow embedding of `src/index.ts` (class `BubblesRising`).  The source file
holds two revisions of the engine; the one embedded here is the later revision,
which is the one the specification describes: it has `calculateParticleCount`,
a measured `deltaTime` passed through the update, maturity threshold 400,
`DEFAULT_VELOCITY_X = 0.02`, `DEFAULT_OPACITY_DECAY = 0.0015`,
`ACCELERATION_Y_DIVISOR = -120000` and `ACCELERATION_FACTOR_DIVISOR = 10000`.

JavaScript numbers are modelled as rationals (`ℚ`); `Math.random()` draws are
made explicit oracle parameters `r` with `0 ≤ r < 1`.
-/

namespace BubblesRising

/-- `PARTICLE_ADD_INTERVAL = 500` (static constant of the class). -/
def PARTICLE_ADD_INTERVAL : ℚ := 500

/-- `PARTICLE_COUNT = 30` (static constant of the class, the base spawn count). -/
def PARTICLE_COUNT : ℚ := 30

/-- `MAX_ELAPSED_TIME = 400` (static constant: the fade maturity threshold). -/
def MAX_ELAPSED_TIME : ℚ := 400

/-- `DEFAULT_VELOCITY_X = 0.02`. -/
def DEFAULT_VELOCITY_X : ℚ := 0.02

/-- `DEFAULT_OPACITY_DECAY = 0.0015`. -/
def DEFAULT_OPACITY_DECAY : ℚ := 0.0015

/-- `ACCELERATION_Y_DIVISOR = -120000`. -/
def ACCELERATION_Y_DIVISOR : ℚ := -120000

/-- `ACCELERATION_FACTOR_DIVISOR = 10000`. -/
def ACCELERATION_FACTOR_DIVISOR : ℚ := 10000

/-- `randomFloat(min, max) = Math.random() * (max - min) + min`, with the
`Math.random()` draw `r ∈ [0,1)` made an explicit first argument. -/
def randomFloat (r lo hi : ℚ) : ℚ :=
  r * (hi - lo) + lo

/-- JavaScript `Math.round`: rounds half toward positive infinity,
`Math.round x = ⌊x + 0.5⌋`. -/
def jsRound (q : ℚ) : ℤ :=
  ⌊q + 1/2⌋

/-- `calculateParticleCount()`: area-scaled spawn batch size.  `width` and
`height` are the surface dimensions (`clientWidth`/`clientHeight`, integers). -/
def calculateParticleCount (width height : ℕ) : ℤ :=
  let area : ℚ := (width : ℚ) * (height : ℚ)
  let baseArea : ℚ := 1920 * 1080
  let scalingFactor : ℚ := area / baseArea
  let minParticles : ℤ := 10
  let maxParticles : ℤ := 100
  max minParticles (min maxParticles (jsRound (PARTICLE_COUNT * scalingFactor)))

/-- The `Particle` record (the `Particle` interface of the source, all fields
JavaScript numbers, modelled as `ℚ`). -/
structure Particle where
  x : ℚ
  y : ℚ
  size : ℚ
  accelerationY : ℚ
  accelerationFactor : ℚ
  velocityX : ℚ
  initialX : ℚ
  elapsedTime : ℚ
  opacity : ℚ
  opacityDecay : ℚ
deriving DecidableEq, Repr

/-- The closed-form vertical position computed by `updateParticle`:
`y = 0.5 * accelerationY * elapsedTime ** 2 + height + size * 3`. -/
def verticalPosition (accelerationY height size elapsedTime : ℚ) : ℚ :=
  0.5 * accelerationY * elapsedTime ^ 2 + height + size * 3

/-- `updateParticle(particle, deltaTime)`: one physics tick.  `height` is the
instance field `this.height`; `wr ∈ [0,1)` is the `Math.random()` draw behind
`this.randomFloat(...WOBBLE_RANGE)` (`WOBBLE_RANGE = [-0.0075, 0.0075]`).
Statement order follows the source: `elapsedTime += deltaTime` first, then the
horizontal velocity/position integration, then the vertical closed form, then
the fade branch guarded by `elapsedTime >= MAX_ELAPSED_TIME`. -/
def updateParticle (height : ℚ) (p : Particle) (deltaTime wr : ℚ) : Particle :=
  let elapsedTime := p.elapsedTime + deltaTime
  let accelerationX := (p.initialX - p.x) * p.accelerationFactor
  let wobble := randomFloat wr (-0.0075) 0.0075
  let velocityX := p.velocityX + (accelerationX + wobble) * (deltaTime / 16.67)
  let x := p.x + velocityX * (deltaTime / 16.67)
  let y := verticalPosition p.accelerationY height p.size elapsedTime
  let opacity :=
    if MAX_ELAPSED_TIME ≤ elapsedTime then
      max 0 (p.opacity - p.opacityDecay * (deltaTime / 16.67))
    else
      p.opacity
  { p with
    elapsedTime := elapsedTime
    velocityX := velocityX
    x := x
    y := y
    opacity := opacity }

/-- Iterated physics updates: fold `updateParticle` over a list of
`(deltaTime, wobble-draw)` pairs, one pair per tick. -/
def applyUpdates (height : ℚ) (steps : List (ℚ × ℚ)) (p : Particle) : Particle :=
  steps.foldl (fun q s => updateParticle height q s.1 s.2) p

/-- The constructor-time configuration consumed by the engine: the surface
dimensions (`this.width`, `this.height`) and the `sizes = [minSize, maxSize]`
pair.  (Resizing is outside the scope of the verified claims, so the
dimensions are carried here as fixed.) -/
structure Config where
  width : ℚ
  height : ℚ
  minSize : ℚ
  maxSize : ℚ
deriving DecidableEq, Repr

/-- The four `Math.random()` draws consumed by one spawn: `rX` behind
`startX = Math.random() * this.width`, and one draw behind each of the three
`randomFloat` calls in `createParticle`/`resetParticle`. -/
structure SpawnDraws where
  rX : ℚ
  rSize : ℚ
  rAccY : ℚ
  rAccF : ℚ
deriving DecidableEq, Repr

/-- A `Math.random()` value lies in `[0, 1)`. -/
def ValidDraws (d : SpawnDraws) : Prop :=
  (0 ≤ d.rX ∧ d.rX < 1) ∧ (0 ≤ d.rSize ∧ d.rSize < 1) ∧
    (0 ≤ d.rAccY ∧ d.rAccY < 1) ∧ (0 ≤ d.rAccF ∧ d.rAccF < 1)

/-- `createParticle(x, y)`: build a fresh particle record. -/
def createParticle (cfg : Config) (x y : ℚ) (d : SpawnDraws) : Particle where
  x := x
  y := y
  size := randomFloat d.rSize cfg.minSize cfg.maxSize
  accelerationY := randomFloat d.rAccY 0.5 1.5 / ACCELERATION_Y_DIVISOR
  accelerationFactor := randomFloat d.rAccF 0.2 0.5 / ACCELERATION_FACTOR_DIVISOR
  velocityX := DEFAULT_VELOCITY_X
  initialX := x
  elapsedTime := 0
  opacity := 1
  opacityDecay := DEFAULT_OPACITY_DECAY

/-- `resetParticle(particle, x, y)`: overwrite every field of a pooled record
in place (the source assigns all ten fields). -/
def resetParticle (cfg : Config) (p : Particle) (x y : ℚ) (d : SpawnDraws) : Particle :=
  { p with
    x := x
    y := y
    size := randomFloat d.rSize cfg.minSize cfg.maxSize
    accelerationY := randomFloat d.rAccY 0.5 1.5 / ACCELERATION_Y_DIVISOR
    accelerationFactor := randomFloat d.rAccF 0.2 0.5 / ACCELERATION_FACTOR_DIVISOR
    velocityX := DEFAULT_VELOCITY_X
    initialX := x
    elapsedTime := 0
    opacity := 1
    opacityDecay := DEFAULT_OPACITY_DECAY }

/-- The engine's particle storage: the live set `this.particles`, the
free-list `this.particlePool` (head of the Lean list = top of the JavaScript
array stack, i.e. the most recently pushed record), and a ghost counter of how
many records `createParticle` has ever allocated. -/
structure EngineState where
  particles : List Particle
  particlePool : List Particle
  allocCount : ℕ
deriving DecidableEq, Repr

/-- One iteration of the loop body of `addParticles`: pool-first acquisition.
If the pool is non-empty, `pop()` the top record and `resetParticle` it;
otherwise `createParticle` a new record (counted by `allocCount`).  Either way
the result is pushed onto the live set. -/
def spawnOne (cfg : Config) (d : SpawnDraws) (s : EngineState) : EngineState :=
  let startX := d.rX * cfg.width
  match s.particlePool with
  | p :: rest =>
      { s with
        particlePool := rest
        particles := s.particles ++ [resetParticle cfg p startX cfg.height d] }
  | [] =>
      { s with
        particles := s.particles ++ [createParticle cfg startX cfg.height d]
        allocCount := s.allocCount + 1 }

/-- `addParticles(count)`: spawn one particle per element of `draws`
(`draws.length` plays the role of `count`; each iteration consumes one
`SpawnDraws` bundle). -/
def addParticles (cfg : Config) (draws : List SpawnDraws) (s : EngineState) : EngineState :=
  draws.foldl (fun t d => spawnOne cfg d t) s

/-- Update every live particle, one wobble draw per particle.  The source
iterates indices from the end of the array; the draw for the particle with
`k` successors is `ws k`. -/
def updateList (height deltaTime : ℚ) (ws : ℕ → ℚ) : List Particle → List Particle
  | [] => []
  | p :: rest =>
      updateParticle height p deltaTime (ws rest.length) :: updateList height deltaTime ws rest

/-- `render(deltaTime)`: update each live particle, then retire those with
`opacity <= 0` into the pool (the reverse-index iteration with `splice`
keeps the survivors in order; pushing the retired records one by one onto the
stack leaves them in list order in front of the old pool). -/
def render (cfg : Config) (deltaTime : ℚ) (ws : ℕ → ℚ) (s : EngineState) : EngineState :=
  let updated := updateList cfg.height deltaTime ws s.particles
  { s with
    particles := updated.filter fun p => !decide (p.opacity ≤ 0)
    particlePool := (updated.filter fun p => decide (p.opacity ≤ 0)) ++ s.particlePool }

/-- The states of the particle storage reachable from the empty instance by
spawn batches (with genuine `Math.random()` draws), ticks with nonnegative
`deltaTime`, and the retirement built into `render`. -/
inductive Reachable (cfg : Config) : EngineState → Prop
  | initial : Reachable cfg ⟨[], [], 0⟩
  | spawn {s : EngineState} (draws : List SpawnDraws) :
      Reachable cfg s → (∀ d ∈ draws, ValidDraws d) →
      Reachable cfg (addParticles cfg draws s)
  | tick {s : EngineState} (deltaTime : ℚ) (ws : ℕ → ℚ) :
      Reachable cfg s → 0 ≤ deltaTime →
      Reachable cfg (render cfg deltaTime ws s)

/-- The spawn-rate decision made at the top of `renderLoop`: trigger a batch
iff `now - lastParticleAddTime >= PARTICLE_ADD_INTERVAL`, resetting
`lastParticleAddTime` to `now` on trigger.  Returns (did-spawn, new
`lastParticleAddTime`). -/
def spawnDecision (now lastAdd : ℚ) : Bool × ℚ :=
  if PARTICLE_ADD_INTERVAL ≤ now - lastAdd then (true, now) else (false, lastAdd)

/-- The spawn flags produced by a sequence of tick times, threading
`lastParticleAddTime` through `spawnDecision`. -/
def spawnFlags (lastAdd : ℚ) : List ℚ → List Bool
  | [] => []
  | t :: ts => (spawnDecision t lastAdd).1 :: spawnFlags (spawnDecision t lastAdd).2 ts

/-- The value of `lastParticleAddTime` after a sequence of tick times. -/
def finalSpawnTime (lastAdd : ℚ) : List ℚ → ℚ
  | [] => lastAdd
  | t :: ts => finalSpawnTime (spawnDecision t lastAdd).2 ts

/-- Number of spawn batches triggered over a sequence of tick times. -/
def countSpawns (lastAdd : ℚ) (ticks : List ℚ) : ℕ :=
  (spawnFlags lastAdd ticks).count true

/-- The lifecycle-relevant state of one `BubblesRising` instance.  Object
references are tracked by presence flags; `resizeObserver` is `some b` when the
instance still holds an observer reference, `b` recording whether that observer
is still connected; `observersAttached` counts every `ResizeObserver` that is
currently observing the container (including observers whose instance reference
was overwritten by a later `setupResizeListener` call, which stay connected);
`loopsRunning` counts the self-rescheduling `renderLoop` callback chains alive;
`nextFrameId` feeds fresh `requestAnimationFrame` handles.  The per-tick
simulation effects of a running loop are the separate `EngineState` machine;
here a loop is tracked only by its scheduling state. -/
structure InstanceState where
  containerPresent : Bool
  canvasPresent : Bool
  canvasAttached : Bool
  ctxPresent : Bool
  width : ℚ
  height : ℚ
  containerWidth : ℚ
  containerHeight : ℚ
  particles : List Particle
  particlePool : List Particle
  animationFrameId : Option ℕ
  resizeObserver : Option Bool
  observersAttached : ℕ
  loopsRunning : ℕ
  nextFrameId : ℕ
deriving DecidableEq, Repr

/-- `initializeCanvas()`: copy the container's client box into
`this.width`/`this.height` (and the canvas bitmap size), guarded by
`if (!this.container || !this.canvas) return`. -/
def initializeCanvas (s : InstanceState) : InstanceState :=
  if s.containerPresent && s.canvasPresent then
    { s with width := s.containerWidth, height := s.containerHeight }
  else s

/-- `setupResizeListener()`: construct a new `ResizeObserver` and observe the
container, guarded by `if (!this.container) return`.  The previous observer, if
any, is neither disconnected nor remembered, so it keeps observing. -/
def setupResizeListener (s : InstanceState) : InstanceState :=
  if s.containerPresent then
    { s with resizeObserver := some true, observersAttached := s.observersAttached + 1 }
  else s

/-- Invoking `this.renderLoop()` starts a new self-rescheduling
`requestAnimationFrame` chain and records its pending handle. -/
def startRenderLoop (s : InstanceState) : InstanceState :=
  { s with
    animationFrameId := some s.nextFrameId
    nextFrameId := s.nextFrameId + 1
    loopsRunning := s.loopsRunning + 1 }

/-- `init()`: no-op unless both the canvas and its 2D context were acquired at
construction; otherwise initialize the canvas, attach the resize listener and
start the render loop. -/
def init (s : InstanceState) : InstanceState :=
  if s.canvasPresent && s.ctxPresent then
    startRenderLoop (setupResizeListener (initializeCanvas s))
  else s

/-- `destroy()`: cancel the pending animation frame (ending the chain it
belongs to), disconnect the currently referenced observer, clear the surface,
detach the canvas element from its parent, null the object references and empty
both particle collections.  `width`/`height` are not reset by the source. -/
def destroy (s : InstanceState) : InstanceState :=
  { s with
    loopsRunning := if s.animationFrameId.isSome then s.loopsRunning - 1 else s.loopsRunning
    animationFrameId := none
    observersAttached :=
      if s.resizeObserver = some true then s.observersAttached - 1 else s.observersAttached
    resizeObserver := s.resizeObserver.map fun _ => false
    canvasAttached := if s.canvasPresent then false else s.canvasAttached
    containerPresent := false
    canvasPresent := false
    ctxPresent := false
    particles := []
    particlePool := [] }

/-- A singly-initialized instance: at most one loop chain and at most one
connected observer, with the bookkeeping fields consistent.  Every state
produced by the documented lifecycle (construct, at most one `init`, any
number of `destroy`s) satisfies this. -/
def SinglyInit (s : InstanceState) : Prop :=
  s.loopsRunning ≤ 1 ∧ (s.animationFrameId.isSome ↔ s.loopsRunning = 1) ∧
    s.observersAttached ≤ 1 ∧ (s.resizeObserver = some true ↔ s.observersAttached = 1)

/-- Modelled from the spec: the published package documents `shape` and
`angle` options (README options table) whose implementation is absent from
this source snapshot.  Per the spec, at spawn
`angle = enabled ? Uniform(0,360) + Uniform(0,180) : 0`. -/
def particleAngle (angleEnabled : Bool) (r₁ r₂ : ℚ) : ℚ :=
  if angleEnabled then randomFloat r₁ 0 360 + randomFloat r₂ 0 180 else 0

/-- Modelled from the spec: a particle together with its `angle` field; the
physics tick leaves `angle` constant (spec: "randomized at spawn, constant
thereafter (not animated over lifetime)"). -/
def updateParticleWithAngle (height : ℚ) (pa : Particle × ℚ) (deltaTime wr : ℚ) :
    Particle × ℚ :=
  (updateParticle height pa.1 deltaTime wr, pa.2)

/-- Concrete sample configuration (reference surface, default `sizes`). -/
def sampleConfig : Config := ⟨1920, 1080, 3, 12⟩

/-- Concrete sample random draws, all `1/2`. -/
def sampleDraws : SpawnDraws := ⟨1/2, 1/2, 1/2, 1/2⟩

/-- The particle built by `createParticle` from the sample data. -/
def sampleParticle : Particle :=
  createParticle sampleConfig (sampleDraws.rX * sampleConfig.width) sampleConfig.height sampleDraws

/-- The engine state after one single-particle spawn batch from empty. -/
def sampleSpawnState : EngineState :=
  addParticles sampleConfig [sampleDraws] ⟨[], [], 0⟩

/-- A freshly constructed instance whose surface acquisition succeeded. -/
def freshInstance : InstanceState where
  containerPresent := true
  canvasPresent := true
  canvasAttached := true
  ctxPresent := true
  width := 0
  height := 0
  containerWidth := 800
  containerHeight := 600
  particles := []
  particlePool := []
  animationFrameId := none
  resizeObserver := none
  observersAttached := 0
  loopsRunning := 0
  nextFrameId := 0

/-- A constructed instance whose container lookup failed (no canvas, no
context): the inert degradation case. -/
def inertInstance : InstanceState :=
  { freshInstance with
    containerPresent := false
    canvasPresent := false
    canvasAttached := false
    ctxPresent := false }

end BubblesRising

/-- **C1.** `calculateParticleCount` equals `round(30 * (w*h) / (1920*1080))`
clamped to `[10, 100]`; at `w = 1920, h = 1080` it equals exactly 30; and for
every `w, h` the result lies between 10 and 100 inclusive. -/
theorem calculateParticleCount_spec :
    (∀ w h : ℕ, BubblesRising.calculateParticleCount w h =
      max 10 (min 100 (BubblesRising.jsRound (30 * ((w : ℚ) * (h : ℚ)) / (1920 * 1080))))) ∧
    BubblesRising.calculateParticleCount 1920 1080 = 30 ∧
    (∀ w h : ℕ, 10 ≤ BubblesRising.calculateParticleCount w h ∧
      BubblesRising.calculateParticleCount w h ≤ 100) := by
  refine ⟨?_, ?_, ?_⟩
  · intro w h
    simp only [BubblesRising.calculateParticleCount, BubblesRising.PARTICLE_COUNT]
    ring_nf
  · simp only [BubblesRising.calculateParticleCount, BubblesRising.PARTICLE_COUNT,
      BubblesRising.jsRound]
    norm_num
  · intro w h
    simp only [BubblesRising.calculateParticleCount]
    omega

/-- Unfolding equation: the tick adds the raw `deltaTime` to `elapsedTime`. -/
theorem updateParticle_elapsedTime (height : ℚ) (p : BubblesRising.Particle)
    (deltaTime wr : ℚ) :
    (BubblesRising.updateParticle height p deltaTime wr).elapsedTime =
      p.elapsedTime + deltaTime := rfl

/-- Unfolding equation for the post-tick opacity. -/
theorem updateParticle_opacity (height : ℚ) (p : BubblesRising.Particle)
    (deltaTime wr : ℚ) :
    (BubblesRising.updateParticle height p deltaTime wr).opacity =
      if BubblesRising.MAX_ELAPSED_TIME ≤ p.elapsedTime + deltaTime then
        max 0 (p.opacity - p.opacityDecay * (deltaTime / 16.67))
      else p.opacity := rfl

/-- The tick does not change `size` or `opacityDecay`. -/
theorem updateParticle_size (height : ℚ) (p : BubblesRising.Particle) (deltaTime wr : ℚ) :
    (BubblesRising.updateParticle height p deltaTime wr).size = p.size ∧
      (BubblesRising.updateParticle height p deltaTime wr).opacityDecay = p.opacityDecay :=
  ⟨rfl, rfl⟩

/-- Unfolding equation for `applyUpdates` on a cons cell. -/
theorem applyUpdates_cons (height : ℚ) (s : ℚ × ℚ) (steps : List (ℚ × ℚ))
    (p : BubblesRising.Particle) :
    BubblesRising.applyUpdates height (s :: steps) p =
      BubblesRising.applyUpdates height steps (BubblesRising.updateParticle height p s.1 s.2) :=
  rfl

/-- With nonnegative per-tick deltas, `elapsedTime` never decreases along a
trajectory. -/
theorem applyUpdates_elapsedTime_mono (height : ℚ) :
    ∀ (steps : List (ℚ × ℚ)) (p : BubblesRising.Particle),
      (∀ s ∈ steps, 0 ≤ s.1) →
      p.elapsedTime ≤ (BubblesRising.applyUpdates height steps p).elapsedTime
  | [], _, _ => le_refl _
  | s :: rest, p, h => by
    rw [applyUpdates_cons]
    have h₁ : p.elapsedTime ≤ (BubblesRising.updateParticle height p s.1 s.2).elapsedTime := by
      rw [updateParticle_elapsedTime]
      have := h s (List.mem_cons_self s rest)
      linarith
    exact le_trans h₁ (applyUpdates_elapsedTime_mono height rest _
      (fun t ht => h t (List.mem_cons_of_mem s ht)))

/-- Opacity is untouched along any trajectory with nonnegative deltas that
stays below the maturity threshold. -/
theorem applyUpdates_opacity_before (height : ℚ) :
    ∀ (steps : List (ℚ × ℚ)) (p : BubblesRising.Particle),
      (∀ s ∈ steps, 0 ≤ s.1) →
      (BubblesRising.applyUpdates height steps p).elapsedTime <
        BubblesRising.MAX_ELAPSED_TIME →
      (BubblesRising.applyUpdates height steps p).opacity = p.opacity
  | [], _, _, _ => rfl
  | s :: rest, p, h, hlt => by
    rw [applyUpdates_cons] at hlt ⊢
    have hrest : ∀ t ∈ rest, 0 ≤ t.1 := fun t ht => h t (List.mem_cons_of_mem s ht)
    have hq : (BubblesRising.updateParticle height p s.1 s.2).elapsedTime <
        BubblesRising.MAX_ELAPSED_TIME :=
      lt_of_le_of_lt (applyUpdates_elapsedTime_mono height rest _ hrest) hlt
    rw [updateParticle_elapsedTime] at hq
    have hstep : (BubblesRising.updateParticle height p s.1 s.2).opacity = p.opacity := by
      rw [updateParticle_opacity, if_neg (not_le.mpr hq)]
    rw [applyUpdates_opacity_before height rest _ hrest hlt, hstep]

/-- Re-initialising a pooled record overwrites all ten fields, so it agrees
with fresh construction on the same position and draws. -/
theorem resetParticle_eq_createParticle (cfg : BubblesRising.Config)
    (p : BubblesRising.Particle) (x y : ℚ) (d : BubblesRising.SpawnDraws) :
    BubblesRising.resetParticle cfg p x y d = BubblesRising.createParticle cfg x y d := rfl

/-- Unfolding equation for `addParticles` on a cons cell. -/
theorem addParticles_cons (cfg : BubblesRising.Config) (d : BubblesRising.SpawnDraws)
    (rest : List BubblesRising.SpawnDraws) (s : BubblesRising.EngineState) :
    BubblesRising.addParticles cfg (d :: rest) s =
      BubblesRising.addParticles cfg rest (BubblesRising.spawnOne cfg d s) := rfl

/-- The invariant carried by every live particle. -/
def ParticleInv (cfg : BubblesRising.Config) (p : BubblesRising.Particle) : Prop :=
  0 ≤ p.opacity ∧ p.opacity ≤ 1 ∧ cfg.minSize ≤ p.size ∧ p.size ≤ cfg.maxSize ∧
    0 ≤ p.opacityDecay

/-- Fresh construction establishes the invariant. -/
theorem createParticle_inv (cfg : BubblesRising.Config) (x y : ℚ)
    (d : BubblesRising.SpawnDraws) (hle : cfg.minSize ≤ cfg.maxSize)
    (h0 : 0 ≤ d.rSize) (h1 : d.rSize < 1) :
    ParticleInv cfg (BubblesRising.createParticle cfg x y d) := by
  refine ⟨by norm_num [BubblesRising.createParticle], by norm_num [BubblesRising.createParticle],
    ?_, ?_, ?_⟩
  · show cfg.minSize ≤ BubblesRising.randomFloat d.rSize cfg.minSize cfg.maxSize
    simp only [BubblesRising.randomFloat]
    nlinarith
  · show BubblesRising.randomFloat d.rSize cfg.minSize cfg.maxSize ≤ cfg.maxSize
    simp only [BubblesRising.randomFloat]
    nlinarith
  · show (0 : ℚ) ≤ BubblesRising.DEFAULT_OPACITY_DECAY
    norm_num [BubblesRising.DEFAULT_OPACITY_DECAY]

/-- The physics tick preserves the invariant when the delta is nonnegative. -/
theorem updateParticle_inv (cfg : BubblesRising.Config) (height : ℚ)
    (p : BubblesRising.Particle) (deltaTime wr : ℚ) (hd : 0 ≤ deltaTime)
    (hp : ParticleInv cfg p) :
    ParticleInv cfg (BubblesRising.updateParticle height p deltaTime wr) := by
  obtain ⟨h0, h1, h2, h3, h4⟩ := hp
  refine ⟨?_, ?_, h2, h3, h4⟩ <;> rw [updateParticle_opacity] <;> split_ifs with hcase
  · exact le_max_left 0 _
  · exact h0
  · have hnn : 0 ≤ p.opacityDecay * (deltaTime / 16.67) := mul_nonneg h4 (by positivity)
    exact max_le (by norm_num) (by linarith)
  · exact h1

/-- Every element of `updateList` is the update of some element of the input. -/
theorem mem_updateList {height deltaTime : ℚ} {ws : ℕ → ℚ} :
    ∀ {l : List BubblesRising.Particle} {q : BubblesRising.Particle},
      q ∈ BubblesRising.updateList height deltaTime ws l →
      ∃ p ∈ l, ∃ w, q = BubblesRising.updateParticle height p deltaTime w
  | [], q, h => absurd h (List.not_mem_nil q)
  | p :: rest, q, h => by
    rcases List.mem_cons.mp h with h | h
    · exact ⟨p, List.mem_cons_self p rest, ws rest.length, h⟩
    · obtain ⟨p', hp', w, hw⟩ := mem_updateList h
      exact ⟨p', List.mem_cons_of_mem p hp', w, hw⟩

/-- Spawning preserves the live-set invariant. -/
theorem addParticles_inv (cfg : BubblesRising.Config) (hle : cfg.minSize ≤ cfg.maxSize) :
    ∀ (draws : List BubblesRising.SpawnDraws) (s : BubblesRising.EngineState),
      (∀ d ∈ draws, BubblesRising.ValidDraws d) →
      (∀ p ∈ s.particles, ParticleInv cfg p) →
      ∀ p ∈ (BubblesRising.addParticles cfg draws s).particles, ParticleInv cfg p
  | [], s, _, hs => hs
  | d :: rest, s, hd, hs => by
    rw [addParticles_cons]
    refine addParticles_inv cfg hle rest _ (fun t ht => hd t (List.mem_cons_of_mem d ht)) ?_
    intro p hp
    have hvalid := hd d (List.mem_cons_self d rest)
    have hnew : ParticleInv cfg
        (BubblesRising.createParticle cfg (d.rX * cfg.width) cfg.height d) :=
      createParticle_inv cfg _ _ d hle hvalid.2.1.1 hvalid.2.1.2
    cases hpool : s.particlePool with
    | nil =>
      rw [BubblesRising.spawnOne, hpool] at hp
      simp only at hp
      rcases List.mem_append.mp hp with h | h
      · exact hs p h
      · rw [List.mem_singleton.mp h]
        exact hnew
    | cons q qs =>
      rw [BubblesRising.spawnOne, hpool] at hp
      simp only at hp
      rcases List.mem_append.mp hp with h | h
      · exact hs p h
      · rw [List.mem_singleton.mp h, resetParticle_eq_createParticle]
        exact hnew

/-- All states reachable by the engine keep the live-set invariant. -/
theorem reachable_inv (cfg : BubblesRising.Config) (hle : cfg.minSize ≤ cfg.maxSize)
    {s : BubblesRising.EngineState} (hs : BubblesRising.Reachable cfg s) :
    ∀ p ∈ s.particles, ParticleInv cfg p := by
  induction hs with
  | initial => intro p hp; exact absurd hp (List.not_mem_nil p)
  | spawn draws hr hv ih => exact addParticles_inv cfg hle draws _ hv ih
  | tick deltaTime ws hr hd ih =>
    intro p hp
    rw [BubblesRising.render] at hp
    simp only at hp
    have hmem := List.mem_of_mem_filter hp
    obtain ⟨p', hp', w, hw⟩ := mem_updateList hmem
    rw [hw]
    exact updateParticle_inv cfg _ p' deltaTime w hd (ih p' hp')

/-- **C4.** For every configuration with `0 < minSize ≤ maxSize` and every
state reachable under spawn, update (nonnegative delta) and retire, every
live particle satisfies `0 ≤ opacity ≤ 1` and `minSize ≤ size ≤ maxSize`. -/
theorem live_particle_bounds (cfg : BubblesRising.Config) (s : BubblesRising.EngineState)
    (_hpos : 0 < cfg.minSize) (hle : cfg.minSize ≤ cfg.maxSize)
    (hs : BubblesRising.Reachable cfg s) :
    ∀ p ∈ s.particles, (0 ≤ p.opacity ∧ p.opacity ≤ 1) ∧
      cfg.minSize ≤ p.size ∧ p.size ≤ cfg.maxSize := by
  intro p hp
  obtain ⟨h1, h2, h3, h4, _⟩ := reachable_inv cfg hle hs p hp
  exact ⟨⟨h1, h2⟩, h3, h4⟩

/-- Witness for C4: the bounds hold for the particle spawned by one concrete
batch from the empty engine. -/
theorem live_particle_bounds_witness :
    (0 ≤ BubblesRising.sampleParticle.opacity ∧ BubblesRising.sampleParticle.opacity ≤ 1) ∧
      BubblesRising.sampleConfig.minSize ≤ BubblesRising.sampleParticle.size ∧
        BubblesRising.sampleParticle.size ≤ BubblesRising.sampleConfig.maxSize :=
  live_particle_bounds BubblesRising.sampleConfig BubblesRising.sampleSpawnState
    (by norm_num [BubblesRising.sampleConfig]) (by norm_num [BubblesRising.sampleConfig])
    (BubblesRising.Reachable.spawn [BubblesRising.sampleDraws] BubblesRising.Reachable.initial
      (by
        intro d hd
        rw [List.mem_singleton.mp hd]
        norm_num [BubblesRising.ValidDraws, BubblesRising.sampleDraws]))
    BubblesRising.sampleParticle
    (by rw [show BubblesRising.sampleSpawnState.particles = [BubblesRising.sampleParticle]
          from rfl]
        exact List.mem_singleton_self _)

/-- **C5.** Acquisition is pool-first and reuse is indistinguishable from
fresh construction: `resetParticle` on a popped record is field-for-field
equal to what `createParticle` would build from the same position and draws,
and a spawn batch of `N ≤ pool size` particles allocates no new records. -/
theorem pool_reuse_spec :
    (∀ (cfg : BubblesRising.Config) (p : BubblesRising.Particle) (x y : ℚ)
        (d : BubblesRising.SpawnDraws),
      BubblesRising.resetParticle cfg p x y d = BubblesRising.createParticle cfg x y d) ∧
    (∀ (cfg : BubblesRising.Config) (draws : List BubblesRising.SpawnDraws)
        (s : BubblesRising.EngineState),
      draws.length ≤ s.particlePool.length →
      (BubblesRising.addParticles cfg draws s).allocCount = s.allocCount) := by
  refine ⟨fun cfg p x y d => rfl, ?_⟩
  intro cfg draws
  induction draws with
  | nil => exact fun s _ => rfl
  | cons d rest ih =>
    intro s hlen
    cases hpool : s.particlePool with
    | nil =>
      rw [hpool] at hlen
      exact absurd hlen (by simp)
    | cons q qs =>
      have hspawn : BubblesRising.spawnOne cfg d s =
          ⟨s.particles ++
              [BubblesRising.resetParticle cfg q (d.rX * cfg.width) cfg.height d],
            qs, s.allocCount⟩ := by
        rw [BubblesRising.spawnOne, hpool]
      have hlen' : rest.length ≤ qs.length := by
        rw [hpool] at hlen
        simpa using hlen
      rw [addParticles_cons, hspawn, ih _ hlen']

/-- Witness for C5: reuse equality at concrete inputs, and a one-particle
batch drawn from a one-record pool allocates nothing. -/
theorem pool_reuse_witness :
    BubblesRising.resetParticle BubblesRising.sampleConfig BubblesRising.sampleParticle 7 1080
        BubblesRising.sampleDraws =
      BubblesRising.createParticle BubblesRising.sampleConfig 7 1080
        BubblesRising.sampleDraws ∧
    (BubblesRising.addParticles BubblesRising.sampleConfig [BubblesRising.sampleDraws]
        ⟨[], [BubblesRising.sampleParticle], 0⟩).allocCount =
      (⟨[], [BubblesRising.sampleParticle], 0⟩ : BubblesRising.EngineState).allocCount :=
  ⟨pool_reuse_spec.1 BubblesRising.sampleConfig BubblesRising.sampleParticle 7 1080
      BubblesRising.sampleDraws,
    pool_reuse_spec.2 BubblesRising.sampleConfig [BubblesRising.sampleDraws]
      ⟨[], [BubblesRising.sampleParticle], 0⟩ (by simp)⟩

/-- Appending one tick appends one spawn flag, decided against the threaded
`lastParticleAddTime`. -/
theorem spawnFlags_append (t : ℚ) :
    ∀ (ticks : List ℚ) (lastAdd : ℚ),
      BubblesRising.spawnFlags lastAdd (ticks ++ [t]) =
        BubblesRising.spawnFlags lastAdd ticks ++
          [(BubblesRising.spawnDecision t (BubblesRising.finalSpawnTime lastAdd ticks)).1]
  | [], _ => rfl
  | u :: ts, lastAdd => by
    show (BubblesRising.spawnDecision u lastAdd).1 ::
        BubblesRising.spawnFlags (BubblesRising.spawnDecision u lastAdd).2 (ts ++ [t]) = _
    rw [spawnFlags_append t ts]
    rfl

/-- **C7.** The spawn controller is a rate limiter: a tick spawns exactly one
batch iff `now - lastSpawnTime ≥ 500` (resetting `lastSpawnTime` to `now`),
two ticks closer than 500 never both spawn, each tick adds at most one batch
(no backlog), and a tick after an arbitrarily long gap spawns exactly one. -/
theorem spawn_rate_limiter_spec :
    (∀ now lastAdd : ℚ,
      (500 ≤ now - lastAdd → BubblesRising.spawnDecision now lastAdd = (true, now)) ∧
      (now - lastAdd < 500 → BubblesRising.spawnDecision now lastAdd = (false, lastAdd))) ∧
    (∀ lastAdd t₁ t₂ : ℚ, (BubblesRising.spawnDecision t₁ lastAdd).1 = true →
      t₂ - t₁ < 500 →
      (BubblesRising.spawnDecision t₂ (BubblesRising.spawnDecision t₁ lastAdd).2).1 = false) ∧
    (∀ (lastAdd t : ℚ) (ticks : List ℚ),
      BubblesRising.countSpawns lastAdd (ticks ++ [t]) ≤
        BubblesRising.countSpawns lastAdd ticks + 1) ∧
    (∀ lastAdd t : ℚ, 500 ≤ t - lastAdd → BubblesRising.countSpawns lastAdd [t] = 1) := by
  have hpos : ∀ now lastAdd : ℚ, 500 ≤ now - lastAdd →
      BubblesRising.spawnDecision now lastAdd = (true, now) := by
    intro now lastAdd h
    simp only [BubblesRising.spawnDecision, BubblesRising.PARTICLE_ADD_INTERVAL]
    rw [if_pos h]
  have hneg : ∀ now lastAdd : ℚ, now - lastAdd < 500 →
      BubblesRising.spawnDecision now lastAdd = (false, lastAdd) := by
    intro now lastAdd h
    simp only [BubblesRising.spawnDecision, BubblesRising.PARTICLE_ADD_INTERVAL]
    rw [if_neg (not_le.mpr h)]
  refine ⟨fun now lastAdd => ⟨hpos now lastAdd, hneg now lastAdd⟩, ?_, ?_, ?_⟩
  · intro lastAdd t₁ t₂ h1 h2
    have hc : 500 ≤ t₁ - lastAdd := by
      by_contra hc
      rw [hneg t₁ lastAdd (not_le.mp hc)] at h1
      exact Bool.false_ne_true h1
    rw [hpos t₁ lastAdd hc, hneg t₂ t₁ h2]
  · intro lastAdd t ticks
    unfold BubblesRising.countSpawns
    rw [spawnFlags_append, List.count_append]
    have hb : ([(BubblesRising.spawnDecision t
        (BubblesRising.finalSpawnTime lastAdd ticks)).1]).count true ≤ 1 := by
      cases (BubblesRising.spawnDecision t (BubblesRising.finalSpawnTime lastAdd ticks)).1 <;>
        simp [List.count_cons]
    omega
  · intro lastAdd t h
    unfold BubblesRising.countSpawns BubblesRising.spawnFlags
    rw [hpos t lastAdd h]
    simp [BubblesRising.spawnFlags]

/-- Witness for C7 at concrete times: a due tick spawns and resets, a tick
450 units later does not, and a lone overdue tick yields exactly one batch. -/
theorem spawn_rate_limiter_witness :
    BubblesRising.spawnDecision 600 0 = (true, 600) ∧
    (BubblesRising.spawnDecision 1050 ((BubblesRising.spawnDecision 600 0).2)).1 = false ∧
    BubblesRising.countSpawns 0 [600] = 1 :=
  ⟨(spawn_rate_limiter_spec.1 600 0).1 (by norm_num),
    spawn_rate_limiter_spec.2.1 0 600 1050
      (by rw [(spawn_rate_limiter_spec.1 600 0).1 (by norm_num)]) (by norm_num),
    spawn_rate_limiter_spec.2.2.2 0 600 (by norm_num)⟩

/-- **C8.** `destroy()` is idempotent and unconditionally safe (it is a total
function of the instance state): a second call leaves the state of the first
call unchanged, and after `destroy()` the live set and pool are empty, the
pending animation frame is cancelled and the object references are dropped;
the canvas element is detached, and on a singly-initialized instance no loop
chain keeps running and no observer stays connected. -/
theorem destroy_idempotent_spec :
    (∀ s : BubblesRising.InstanceState,
      BubblesRising.destroy (BubblesRising.destroy s) = BubblesRising.destroy s) ∧
    (∀ s : BubblesRising.InstanceState,
      (BubblesRising.destroy s).particles = [] ∧
      (BubblesRising.destroy s).particlePool = [] ∧
      (BubblesRising.destroy s).animationFrameId = none ∧
      (BubblesRising.destroy s).containerPresent = false ∧
      (BubblesRising.destroy s).canvasPresent = false ∧
      (BubblesRising.destroy s).ctxPresent = false) ∧
    (∀ s : BubblesRising.InstanceState, s.canvasPresent = true →
      (BubblesRising.destroy s).canvasAttached = false) ∧
    (∀ s : BubblesRising.InstanceState, BubblesRising.SinglyInit s →
      (BubblesRising.destroy s).loopsRunning = 0 ∧
        (BubblesRising.destroy s).observersAttached = 0) := by
  refine ⟨?_, fun s => ⟨rfl, rfl, rfl, rfl, rfl, rfl⟩, ?_, ?_⟩
  · intro s
    obtain ⟨cp, cvp, ca, ctx, w, h, cw, ch, ps, pool, afi, ro, oa, lr, nf⟩ := s
    simp only [BubblesRising.destroy]
    cases ro <;> cases afi <;> simp
  · intro s h
    simp [BubblesRising.destroy, h]
  · intro s hs
    obtain ⟨hl, hiff, ho, hroiff⟩ := hs
    constructor
    · have h1 : (BubblesRising.destroy s).loopsRunning =
          if s.animationFrameId.isSome then s.loopsRunning - 1 else s.loopsRunning := rfl
      rcases hafi : s.animationFrameId with _ | k <;> rw [hafi] at h1 hiff <;>
        simp at h1 hiff <;> omega
    · have h2 : (BubblesRising.destroy s).observersAttached =
          if s.resizeObserver = some true then s.observersAttached - 1
          else s.observersAttached := rfl
      by_cases hro : s.resizeObserver = some true
      · rw [h2, if_pos hro]
        have := hroiff.mp hro
        omega
      · rw [h2, if_neg hro]
        have hne : ¬s.observersAttached = 1 := fun hx => hro (hroiff.mpr hx)
        omega

/-- Witness for C8: the detach and full-teardown parts at a concrete freshly
constructed and then initialized instance. -/
theorem destroy_idempotent_witness :
    (BubblesRising.destroy BubblesRising.freshInstance).canvasAttached = false ∧
    ((BubblesRising.destroy (BubblesRising.init
        BubblesRising.freshInstance)).loopsRunning = 0 ∧
      (BubblesRising.destroy (BubblesRising.init
        BubblesRising.freshInstance)).observersAttached = 0) :=
  ⟨destroy_idempotent_spec.2.2.1 BubblesRising.freshInstance rfl,
    destroy_idempotent_spec.2.2.2 (BubblesRising.init BubblesRising.freshInstance)
      ⟨by norm_num [BubblesRising.init, BubblesRising.startRenderLoop,
          BubblesRising.setupResizeListener, BubblesRising.initializeCanvas,
          BubblesRising.freshInstance],
        by norm_num [BubblesRising.init, BubblesRising.startRenderLoop,
          BubblesRising.setupResizeListener, BubblesRising.initializeCanvas,
          BubblesRising.freshInstance],
        by norm_num [BubblesRising.init, BubblesRising.startRenderLoop,
          BubblesRising.setupResizeListener, BubblesRising.initializeCanvas,
          BubblesRising.freshInstance],
        by norm_num [BubblesRising.init, BubblesRising.startRenderLoop,
          BubblesRising.setupResizeListener, BubblesRising.initializeCanvas,
          BubblesRising.freshInstance]⟩⟩

/-- **C9, counterexample.** On an instance whose construction succeeded,
calling `init()` twice is observably different from calling it once: the
second call attaches a second `ResizeObserver` and starts a second
`requestAnimationFrame` chain. -/
theorem init_not_idempotent_counterexample :
    BubblesRising.init (BubblesRising.init BubblesRising.freshInstance) ≠
      BubblesRising.init BubblesRising.freshInstance := by
  intro h
  have h2 : (BubblesRising.init (BubblesRising.init
        BubblesRising.freshInstance)).observersAttached =
      (BubblesRising.init BubblesRising.freshInstance).observersAttached :=
    congrArg BubblesRising.InstanceState.observersAttached h
  have e1 : (BubblesRising.init BubblesRising.freshInstance).observersAttached = 1 := rfl
  have e2 : (BubblesRising.init (BubblesRising.init
      BubblesRising.freshInstance)).observersAttached = 2 := rfl
  rw [e1, e2] at h2
  exact absurd h2 (by norm_num)

/-- **C9, amended.** `init()` is inert when the surface could not be acquired
at construction; when construction succeeded, each call attaches one more
resize listener and starts one more animation loop, so a second call is not
observably equivalent to a single one. -/
theorem init_spec_amended :
    (∀ s : BubblesRising.InstanceState,
      s.canvasPresent = false ∨ s.ctxPresent = false → BubblesRising.init s = s) ∧
    (∀ s : BubblesRising.InstanceState, s.containerPresent = true →
      s.canvasPresent = true → s.ctxPresent = true →
      (BubblesRising.init s).observersAttached = s.observersAttached + 1 ∧
        (BubblesRising.init s).loopsRunning = s.loopsRunning + 1) := by
  constructor
  · intro s hs
    rcases hs with h | h <;> simp [BubblesRising.init, h]
  · intro s h0 h1 h2
    constructor <;>
      simp [BubblesRising.init, h0, h1, h2, BubblesRising.startRenderLoop,
        BubblesRising.setupResizeListener, BubblesRising.initializeCanvas]

/-- Witness for C9's amended claim: the inert branch at a failed-construction
instance and the duplication equations at a successful one. -/
theorem init_spec_amended_witness :
    BubblesRising.init BubblesRising.inertInstance = BubblesRising.inertInstance ∧
      ((BubblesRising.init BubblesRising.freshInstance).observersAttached =
          BubblesRising.freshInstance.observersAttached + 1 ∧
        (BubblesRising.init BubblesRising.freshInstance).loopsRunning =
          BubblesRising.freshInstance.loopsRunning + 1) :=
  ⟨init_spec_amended.1 BubblesRising.inertInstance (Or.inl rfl),
    init_spec_amended.2 BubblesRising.freshInstance rfl rfl rfl⟩

/-- **C10.** Spawn initialization: `size ~ Uniform(minSize, maxSize)`,
`accelerationY ~ Uniform(0.5, 1.5) / (-120000)`,
`accelerationFactor ~ Uniform(0.2, 0.5) / 10000`, `velocityX = 0.02`,
`opacityDecay = 0.0015`, `opacity = 1`, `elapsedTime = 0`; and (modelled from
the spec, the `angle` option being absent from this snapshot) the angle is
`Uniform(0,360) + Uniform(0,180)` when rotation is enabled, `0` otherwise,
and stays constant across physics ticks. -/
theorem spawn_initialization_spec :
    (∀ (cfg : BubblesRising.Config) (x y : ℚ) (d : BubblesRising.SpawnDraws),
      (BubblesRising.createParticle cfg x y d).size =
        BubblesRising.randomFloat d.rSize cfg.minSize cfg.maxSize ∧
      (BubblesRising.createParticle cfg x y d).accelerationY =
        BubblesRising.randomFloat d.rAccY 0.5 1.5 / (-120000) ∧
      (BubblesRising.createParticle cfg x y d).accelerationFactor =
        BubblesRising.randomFloat d.rAccF 0.2 0.5 / 10000 ∧
      (BubblesRising.createParticle cfg x y d).velocityX = 0.02 ∧
      (BubblesRising.createParticle cfg x y d).opacityDecay = 0.0015 ∧
      (BubblesRising.createParticle cfg x y d).opacity = 1 ∧
      (BubblesRising.createParticle cfg x y d).elapsedTime = 0) ∧
    (∀ r₁ r₂ : ℚ, BubblesRising.particleAngle true r₁ r₂ =
      BubblesRising.randomFloat r₁ 0 360 + BubblesRising.randomFloat r₂ 0 180) ∧
    (∀ r₁ r₂ : ℚ, BubblesRising.particleAngle false r₁ r₂ = 0) ∧
    (∀ (height : ℚ) (pa : BubblesRising.Particle × ℚ) (deltaTime wr : ℚ),
      (BubblesRising.updateParticleWithAngle height pa deltaTime wr).2 = pa.2) :=
  ⟨fun _ _ _ _ => ⟨rfl, rfl, rfl, rfl, rfl, rfl, rfl⟩, fun _ _ => rfl,
    fun _ _ => rfl, fun _ _ _ _ => rfl⟩

/-- **C2.** The tick first performs `elapsedTime += deltaTime` (raw, not
scaled by the time factor) and then recomputes
`y = 0.5 * accelerationY * elapsedTime ^ 2 + height + size * 3`; with
negative `accelerationY` this position strictly decreases as `elapsedTime`
grows; and at `accelerationY = -0.00001`, `height = 1000`, `size = 10`,
`elapsedTime = 0` the formula yields `y = 1030`. -/
theorem updateParticle_vertical_spec :
    (∀ (height : ℚ) (p : BubblesRising.Particle) (deltaTime wr : ℚ),
      (BubblesRising.updateParticle height p deltaTime wr).elapsedTime =
        p.elapsedTime + deltaTime ∧
      (BubblesRising.updateParticle height p deltaTime wr).y =
        0.5 * p.accelerationY * (p.elapsedTime + deltaTime) ^ 2 + height + p.size * 3) ∧
    (∀ a height size t₁ t₂ : ℚ, a < 0 → 0 ≤ t₁ → t₁ < t₂ →
      BubblesRising.verticalPosition a height size t₂ <
        BubblesRising.verticalPosition a height size t₁) ∧
    BubblesRising.verticalPosition (-0.00001) 1000 10 0 = 1030 := by
  refine ⟨fun height p deltaTime wr => ⟨rfl, rfl⟩, ?_, by
    norm_num [BubblesRising.verticalPosition]⟩
  intro a height size t₁ t₂ ha ht₁ ht
  simp only [BubblesRising.verticalPosition]
  have h₁ : 0 < (t₂ - t₁) * (t₂ + t₁) := mul_pos (by linarith) (by linarith)
  have h₂ : a * ((t₂ - t₁) * (t₂ + t₁)) < 0 := mul_neg_of_neg_of_pos ha h₁
  nlinarith [h₂]

/-- Witness for C2: applies the strict-decrease part at a concrete input. -/
theorem updateParticle_vertical_witness :
    BubblesRising.verticalPosition (-0.00001) 1000 10 100 <
      BubblesRising.verticalPosition (-0.00001) 1000 10 0 :=
  updateParticle_vertical_spec.2.1 (-0.00001) 1000 10 0 100 (by norm_num) (by norm_num)
    (by norm_num)

/-- **C6.** The horizontal update: the restoring acceleration is
`(initialX - x) * accelerationFactor`, the wobble is drawn from
`[-0.0075, 0.0075]`, and with `timeFactor = deltaTime / 16.67` the tick
performs `velocityX += (accelerationX + wobble) * timeFactor` followed by
`x += velocityX * timeFactor`. -/
theorem updateParticle_horizontal_spec :
    (∀ (height : ℚ) (p : BubblesRising.Particle) (deltaTime wr : ℚ),
      (BubblesRising.updateParticle height p deltaTime wr).velocityX =
        p.velocityX + ((p.initialX - p.x) * p.accelerationFactor +
          BubblesRising.randomFloat wr (-0.0075) 0.0075) * (deltaTime / 16.67) ∧
      (BubblesRising.updateParticle height p deltaTime wr).x =
        p.x + (BubblesRising.updateParticle height p deltaTime wr).velocityX *
          (deltaTime / 16.67)) ∧
    (∀ wr : ℚ, 0 ≤ wr → wr < 1 →
      -0.0075 ≤ BubblesRising.randomFloat wr (-0.0075) 0.0075 ∧
        BubblesRising.randomFloat wr (-0.0075) 0.0075 ≤ 0.0075) := by
  refine ⟨fun height p deltaTime wr => ⟨rfl, rfl⟩, fun wr h0 h1 => ⟨?_, ?_⟩⟩
  · simp only [BubblesRising.randomFloat]
    nlinarith
  · simp only [BubblesRising.randomFloat]
    nlinarith

/-- Witness for C6: the wobble bounds at the concrete draw `1/2`. -/
theorem updateParticle_horizontal_witness :
    -0.0075 ≤ BubblesRising.randomFloat (1/2) (-0.0075) 0.0075 ∧
      BubblesRising.randomFloat (1/2) (-0.0075) 0.0075 ≤ 0.0075 :=
  updateParticle_horizontal_spec.2 (1/2) (by norm_num) (by norm_num)

/-- **C3.** Along any trajectory of ticks with nonnegative deltas from a fresh
particle, opacity is exactly 1 while `elapsedTime < 400`; once the post-tick
`elapsedTime` reaches 400 the tick sets
`opacity = max 0 (opacity - opacityDecay * (deltaTime / 16.67))`; and with
nonnegative delta (and the nonnegative opacity/decay every spawned particle
has) opacity never increases. -/
theorem opacity_fade_spec :
    (∀ (height : ℚ) (steps : List (ℚ × ℚ)) (p : BubblesRising.Particle),
      p.opacity = 1 → (∀ s ∈ steps, 0 ≤ s.1) →
      (BubblesRising.applyUpdates height steps p).elapsedTime < 400 →
      (BubblesRising.applyUpdates height steps p).opacity = 1) ∧
    (∀ (height : ℚ) (p : BubblesRising.Particle) (deltaTime wr : ℚ),
      400 ≤ p.elapsedTime + deltaTime →
      (BubblesRising.updateParticle height p deltaTime wr).opacity =
        max 0 (p.opacity - p.opacityDecay * (deltaTime / 16.67))) ∧
    (∀ (height : ℚ) (p : BubblesRising.Particle) (deltaTime wr : ℚ),
      0 ≤ deltaTime → 0 ≤ p.opacity → 0 ≤ p.opacityDecay →
      (BubblesRising.updateParticle height p deltaTime wr).opacity ≤ p.opacity) := by
  refine ⟨?_, ?_, ?_⟩
  · intro height steps p hop hd hlt
    rw [applyUpdates_opacity_before height steps p hd
      (by simpa [BubblesRising.MAX_ELAPSED_TIME] using hlt), hop]
  · intro height p deltaTime wr hge
    rw [updateParticle_opacity, if_pos (by simpa [BubblesRising.MAX_ELAPSED_TIME] using hge)]
  · intro height p deltaTime wr hd hop hdecay
    rw [updateParticle_opacity]
    split_ifs with hcase
    · have hnn : 0 ≤ p.opacityDecay * (deltaTime / 16.67) :=
        mul_nonneg hdecay (by positivity)
      exact max_le hop (by linarith)
    · exact le_refl _

/-- Witness for C3 at concrete inputs: a short trajectory keeps opacity 1, a
mature tick applies the fade formula, and the fade never increases opacity. -/
theorem opacity_fade_witness :
    (BubblesRising.applyUpdates 1080 [(100, 1/2)] BubblesRising.sampleParticle).opacity = 1 ∧
    (BubblesRising.updateParticle 1080 BubblesRising.sampleParticle 400 (1/2)).opacity =
      max 0 (BubblesRising.sampleParticle.opacity -
        BubblesRising.sampleParticle.opacityDecay * (400 / 16.67)) ∧
    (BubblesRising.updateParticle 1080 BubblesRising.sampleParticle 400 (1/2)).opacity ≤
      BubblesRising.sampleParticle.opacity :=
  ⟨opacity_fade_spec.1 1080 [(100, 1/2)] BubblesRising.sampleParticle rfl
      (by norm_num)
      (by rw [show (BubblesRising.applyUpdates 1080 [(100, 1/2)]
          BubblesRising.sampleParticle).elapsedTime = (0 : ℚ) + 100 from rfl]; norm_num),
    opacity_fade_spec.2.1 1080 BubblesRising.sampleParticle 400 (1/2)
      (by rw [show BubblesRising.sampleParticle.elapsedTime = (0 : ℚ) from rfl]; norm_num),
    opacity_fade_spec.2.2 1080 BubblesRising.sampleParticle 400 (1/2) (by norm_num)
      (by rw [show BubblesRising.sampleParticle.opacity = (1 : ℚ) from rfl]; norm_num)
      (by rw [show BubblesRising.sampleParticle.opacityDecay = (0.0015 : ℚ) from rfl]
          norm_num)⟩
